import Mathlib

/-!
Verification of the MicroTeX box model core (src/box/box.cpp, src/common.h).

The C++ classes Box, BoxGroup and DecorBox are embedded as one inductive tree
type; the member functions of box.cpp are translated into Lean functions over
that type.  The TeXConstants enumeration of common.h is embedded as integer
constants with the values the C++ enum assigns.
-/

namespace tex

/-- Modelled from the spec: `FontContext::NO_FONT`, declared in
unimath/uni_font.h which is not among the given sources.  The box model treats
it as an opaque, equality-comparable sentinel meaning "no font"; the concrete
value is irrelevant to every property below, `-1` is used as a representative
distinct from every real font id appearing in the scenarios. -/
def NO_FONT : Int := -1

/-- The four metric fields of the C++ `Box` base class, as used by
`Box::copyMetrics` in box.cpp: `_width`, `_height`, `_depth`, `_shift`.
C++ stores them as floating point; no arithmetic is performed on them in the
sources, only copies and comparisons, so they are modelled as rationals. -/
structure Metrics where
  _width : Rat
  _height : Rat
  _depth : Rat
  _shift : Rat

/-- The polymorphic box hierarchy of box.cpp as a tree:
* `plain` — a base-class `Box` with no glyph content (its `lastFontId` is the
  inherited default of box.cpp line 14);
* `leaf` — modelled from the spec: a glyph-bearing leaf variant whose
  `lastFontId` is intrinsic ("for a leaf glyph box this is intrinsic");
  the concrete leaf classes are layout-algorithm-specific and not in the
  given sources;
* `group` — `BoxGroup`, owning the ordered child sequence `_children`;
* `decor` — `DecorBox`, owning the single base box `_base`. -/
inductive Box where
  | plain (m : Metrics)
  | leaf (m : Metrics) (fontId : Int)
  | group (m : Metrics) (children : List Box)
  | decor (m : Metrics) (base : Box)

/-- The metric fields of a box (every variant inherits them from `Box`). -/
def Box.metrics : Box → Metrics
  | .plain m => m
  | .leaf m _ => m
  | .group m _ => m
  | .decor m _ => m

/-- Replace the metric fields of a box, leaving its structural payload
(children, base, intrinsic font id) untouched. -/
def Box.setMetrics : Box → Metrics → Box
  | .plain _, m => .plain m
  | .leaf _ i, m => .leaf m i
  | .group _ cs, m => .group m cs
  | .decor _ b, m => .decor m b

/-- `Box::copyMetrics(const sptr<Box>& box)` (box.cpp lines 7-12):
`_width = box->_width; _height = box->_height; _depth = box->_depth;
_shift = box->_shift;` — the receiver's four metric fields are overwritten
with `box`'s; nothing else is written. -/
def Box.copyMetrics (a box : Box) : Box :=
  a.setMetrics
    { _width := box.metrics._width
      _height := box.metrics._height
      _depth := box.metrics._depth
      _shift := box.metrics._shift }

/-- `Box::copyMetrics` as a transformer on the pair (receiver, argument): the
argument is passed by const reference and only read, so the call yields the
updated receiver together with the argument exactly as it was passed. -/
def Box.copyMetricsM (a box : Box) : Box × Box :=
  (a.copyMetrics box, box)

/-- The self-aliased call `A.copyMetrics(A)`: `this` and `box` denote the same
object, so each of the four assignments of box.cpp lines 8-11 reads its
right-hand side from the current, possibly already updated, state of that one
object.  Translated assignment by assignment. -/
def Box.copyMetricsSelf (a : Box) : Box :=
  let s1 := a.setMetrics { a.metrics with _width := a.metrics._width }
  let s2 := s1.setMetrics { s1.metrics with _height := s1.metrics._height }
  let s3 := s2.setMetrics { s2.metrics with _depth := s2.metrics._depth }
  s3.setMetrics { s3.metrics with _shift := s3.metrics._shift }

/-- The child sequence of a box: `_children` for a `BoxGroup`, empty for every
other variant (only `BoxGroup` has children). -/
def Box.childrenOf : Box → List Box
  | .group _ cs => cs
  | _ => []

/-- The base box of a box: `_base` for a `DecorBox`, none for every other
variant (only `DecorBox` has a base). -/
def Box.baseOf : Box → Option Box
  | .decor _ b => some b
  | _ => none

mutual

/-- `lastFontId` of box.cpp:
* `Box::lastFontId()` (line 14): `return FontContext::NO_FONT;`
* a glyph leaf returns its intrinsic font id (modelled from the spec);
* `BoxGroup::lastFontId()` (lines 34-40): `id = NO_FONT; for (i = size-1;
  i >= 0 && id == NO_FONT; i--) id = _children[i]->lastFontId(); return id;`
* `DecorBox::lastFontId()` (line 42): `return _base->lastFontId();` -/
def Box.lastFontId : Box → Int
  | .plain _ => NO_FONT
  | .leaf _ i => i
  | .group _ cs => lastFontIdChildren cs
  | .decor _ b => b.lastFontId

/-- The loop of `BoxGroup::lastFontId` over the child sequence: the running
`id` after the iterations that visit the suffix starting at the head's index
is the head's `lastFontId` when every later child produced `NO_FONT` (the loop
kept running), and the later children's result otherwise (the loop already
stopped). -/
def lastFontIdChildren : List Box → Int
  | [] => NO_FONT
  | c :: cs =>
      let rest := lastFontIdChildren cs
      if rest = NO_FONT then c.lastFontId else rest

end

mutual

/-- `lastFontId` instrumented as a state transformer on the receiver tree:
returns the result together with the tree as it stands after the call.
Translated statement by statement from box.cpp; the three bodies contain no
assignment to any box field — only reads of `_children`, `_base` and calls —
so every node is rebuilt from exactly the parts that were read. -/
def Box.lastFontIdM : Box → Int × Box
  | .plain m => (NO_FONT, .plain m)
  | .leaf m i => (i, .leaf m i)
  | .group m cs =>
      let r := lastFontIdChildrenM cs
      (r.1, .group m r.2)
  | .decor m b =>
      let r := b.lastFontIdM
      (r.1, .decor m r.2)

/-- The `BoxGroup::lastFontId` loop as a state transformer on the child
sequence: children visited by the loop are passed through their own
`lastFontIdM`; children the loop never reaches (those before the first
non-sentinel result, scanning from the back) are returned as they were. -/
def lastFontIdChildrenM : List Box → Int × List Box
  | [] => (NO_FONT, [])
  | c :: cs =>
      let r := lastFontIdChildrenM cs
      if r.1 = NO_FONT then
        let rc := c.lastFontIdM
        (rc.1, rc.2 :: r.2)
      else (r.1, c :: r.2)

end

/-- `BoxGroup::add(const sptr<Box>& box)` (box.cpp line 26):
`_children.push_back(box);` — append at the end of the child sequence. -/
def BoxGroup.add (cs : List Box) (b : Box) : List Box :=
  cs ++ [b]

/-- `std::vector::insert(begin() + n, b)` for `0 ≤ n ≤ size`: `b` is inserted
so that it becomes the element at index `n`, later elements shifting one slot.
(The `n+1, []` case is unreachable when `n ≤ length`.) -/
def vecInsert : Nat → Box → List Box → List Box
  | 0, b, xs => b :: xs
  | _ + 1, b, [] => [b]
  | n + 1, b, x :: xs => x :: vecInsert n b xs

/-- The possible outcomes of `BoxGroup::add(int pos, box)`:
* `ok cs` — the insert happened, `cs` is the new child sequence;
* `indexError cs` — an out-of-range condition surfaced to the caller with the
  child sequence `cs` left as it was (the outcome the spec describes; the
  code never produces it);
* `undefinedBehavior` — the C++ call has no defined result. -/
inductive AddResult where
  | ok (children : List Box)
  | indexError (children : List Box)
  | undefinedBehavior

/-- Whether an outcome is a surfaced indexing error. -/
def AddResult.isIndexError : AddResult → Bool
  | .indexError _ => true
  | .ok _ => false
  | .undefinedBehavior => false

/-- `BoxGroup::add(int pos, const sptr<Box>& box)` (box.cpp lines 30-32):
`_children.insert(_children.begin() + pos, box);` — the source performs no
bounds check and raises no error.  C++ defines `begin() + pos` and the insert
only for `0 ≤ pos ≤ _children.size()`; outside that range the call is
undefined behavior, modelled as the `undefinedBehavior` outcome. -/
def BoxGroup.addAt (cs : List Box) (pos : Int) (b : Box) : AddResult :=
  if 0 ≤ pos ∧ pos ≤ (cs.length : Int) then AddResult.ok (vecInsert pos.toNat b cs)
  else AddResult.undefinedBehavior

/-- Modelled from the spec: `add(position, box)` as sections 4.2 and 7 of the
spec describe it — a position outside `0 ≤ position ≤ current child count`
fails with an indexing error surfaced to the caller, leaving the child
sequence unmodified; an in-range position inserts.  Stated only to be
compared with `BoxGroup.addAt`, the translation of the source. -/
def BoxGroup.addAtSpec (cs : List Box) (pos : Int) (b : Box) : AddResult :=
  if 0 ≤ pos ∧ pos ≤ (cs.length : Int) then AddResult.ok (vecInsert pos.toNat b cs)
  else AddResult.indexError cs

/-- The value the `BoxGroup::lastFontId` loop computes, characterised over the
list of the children's own results listed from the last child to the first:
the first entry different from `NO_FONT`, or `NO_FONT` when there is none. -/
def scanBackFirstFont : List Int → Int
  | [] => NO_FONT
  | i :: rest => if i ≠ NO_FONT then i else scanBackFirstFont rest

/-- A concrete metrics quadruple used by the closed scenarios below. -/
def m0 : Metrics :=
  { _width := 0, _height := 0, _depth := 0, _shift := 0 }

/-! ## TeXConstants (src/common.h)

The `TeXConstants` enumeration embedded constant by constant, each with the
value the C++ enumerator carries (explicit initialisers as written, implicit
increment from the predecessor otherwise). -/

/-- common.h: `ALIGN_LEFT = 0`. -/
def ALIGN_LEFT : Int := 0

/-- common.h: `ALIGN_RIGHT` (= 1). -/
def ALIGN_RIGHT : Int := 1

/-- common.h: `ALIGN_CENTER` (= 2). -/
def ALIGN_CENTER : Int := 2

/-- common.h: `ALIGN_TOP` (= 3). -/
def ALIGN_TOP : Int := 3

/-- common.h: `ALIGN_BOTTOM` (= 4). -/
def ALIGN_BOTTOM : Int := 4

/-- common.h: `ALIGN_NONE` (= 5). -/
def ALIGN_NONE : Int := 5

/-- common.h: `THINMUSKIP = 1`. -/
def THINMUSKIP : Int := 1

/-- common.h: `MEDMUSKIP = 2`. -/
def MEDMUSKIP : Int := 2

/-- common.h: `THICKMUSKIP = 3`. -/
def THICKMUSKIP : Int := 3

/-- common.h: `NEGTHINMUSKIP = -1`. -/
def NEGTHINMUSKIP : Int := -1

/-- common.h: `NEGMEDMUSKIP = -2`. -/
def NEGMEDMUSKIP : Int := -2

/-- common.h: `NEGTHICKMUSKP = -3` (name as spelled in the source). -/
def NEGTHICKMUSKP : Int := -3

/-- common.h: `QUAD = 3`. -/
def QUAD : Int := 3

/-- common.h: `SCRIPT_NORMAL = 0`. -/
def SCRIPT_NORMAL : Int := 0

/-- common.h: `SCRIPT_NOLIMITS` (= 1). -/
def SCRIPT_NOLIMITS : Int := 1

/-- common.h: `SCRIPT_LIMITS` (= 2). -/
def SCRIPT_LIMITS : Int := 2

/-- common.h: `TYPE_ORDINARY = 0`. -/
def TYPE_ORDINARY : Int := 0

/-- common.h: `TYPE_BIG_OPERATOR` (= 1). -/
def TYPE_BIG_OPERATOR : Int := 1

/-- common.h: `TYPE_BINARY_OPERATOR` (= 2). -/
def TYPE_BINARY_OPERATOR : Int := 2

/-- common.h: `TYPE_RELATION` (= 3). -/
def TYPE_RELATION : Int := 3

/-- common.h: `TYPE_OPENING` (= 4). -/
def TYPE_OPENING : Int := 4

/-- common.h: `TYPE_CLOSING` (= 5). -/
def TYPE_CLOSING : Int := 5

/-- common.h: `TYPE_PUNCTUATION` (= 6). -/
def TYPE_PUNCTUATION : Int := 6

/-- common.h: `TYPE_INNER` (= 7). -/
def TYPE_INNER : Int := 7

/-- common.h: `TYPE_ACCENT = 10`. -/
def TYPE_ACCENT : Int := 10

/-- common.h: `TYPE_INTERTEXT` (= 11). -/
def TYPE_INTERTEXT : Int := 11

/-- common.h: `TYPE_MULTICOLUMN` (= 12). -/
def TYPE_MULTICOLUMN : Int := 12

/-- common.h: `TYPE_HLINE` (= 13). -/
def TYPE_HLINE : Int := 13

/-- common.h: `TYPE_MULTIROW` (= 14). -/
def TYPE_MULTIROW : Int := 14

/-- common.h: `DELIM_BRACE = 0`. -/
def DELIM_BRACE : Int := 0

/-- common.h: `DELIM_SQUARE_BRACKET` (= 1). -/
def DELIM_SQUARE_BRACKET : Int := 1

/-- common.h: `DELIM_BRACKET` (= 2). -/
def DELIM_BRACKET : Int := 2

/-- common.h: `DELIM_LEFT_ARROW` (= 3). -/
def DELIM_LEFT_ARROW : Int := 3

/-- common.h: `DELIM_RIGHT_ARROW` (= 4). -/
def DELIM_RIGHT_ARROW : Int := 4

/-- common.h: `DELIM_LEFT_RIGHT_ARROW` (= 5). -/
def DELIM_LEFT_RIGHT_ARROW : Int := 5

/-- common.h: `DELIM_DOUBLE_LEFT_ARROW` (= 6). -/
def DELIM_DOUBLE_LEFT_ARROW : Int := 6

/-- common.h: `DELIM_DOUBLE_RIGHT_ARROW` (= 7). -/
def DELIM_DOUBLE_RIGHT_ARROW : Int := 7

/-- common.h: `DELIM_DOUBLE_LEFT_RIGHT_ARROW` (= 8). -/
def DELIM_DOUBLE_LEFT_RIGHT_ARROW : Int := 8

/-- common.h: `DELIM_SIGNLE_LINE` (= 9, name as spelled in the source). -/
def DELIM_SIGNLE_LINE : Int := 9

/-- common.h: `DELIM_DOUBLE_LINE` (= 10). -/
def DELIM_DOUBLE_LINE : Int := 10

/-- common.h: `STYLE_DISPLAY = 0`. -/
def STYLE_DISPLAY : Int := 0

/-- common.h: `STYLE_TEXT = 2`. -/
def STYLE_TEXT : Int := 2

/-- common.h: `STYLE_SCRIPT = 4`. -/
def STYLE_SCRIPT : Int := 4

/-- common.h: `STYLE_SCRIPT_SCRIPT = 6`. -/
def STYLE_SCRIPT_SCRIPT : Int := 6

/-- common.h: `UNIT_EM = 0`. -/
def UNIT_EM : Int := 0

/-- common.h: `UNIT_EX` (= 1). -/
def UNIT_EX : Int := 1

/-- common.h: `UNIT_PIXEL` (= 2). -/
def UNIT_PIXEL : Int := 2

/-- common.h: `UNIT_POINT` (= 3). -/
def UNIT_POINT : Int := 3

/-- common.h: `UNIT_PICA` (= 4). -/
def UNIT_PICA : Int := 4

/-- common.h: `UNIT_MU` (= 5). -/
def UNIT_MU : Int := 5

/-- common.h: `UNIT_CM` (= 6). -/
def UNIT_CM : Int := 6

/-- common.h: `UNIT_MM` (= 7). -/
def UNIT_MM : Int := 7

/-- common.h: `UNIT_IN` (= 8). -/
def UNIT_IN : Int := 8

/-- common.h: `UNIT_SP` (= 9). -/
def UNIT_SP : Int := 9

/-- common.h: `UNIT_PT` (= 10). -/
def UNIT_PT : Int := 10

/-- common.h: `UNIT_DD` (= 11). -/
def UNIT_DD : Int := 11

/-- common.h: `UNIT_CC` (= 12). -/
def UNIT_CC : Int := 12

/-- common.h: `UNIT_X8` (= 13). -/
def UNIT_X8 : Int := 13

/-! ## Helper lemmas -/

/-- Scanning a concatenation for the first non-sentinel entry: the left part
is consulted first, the right part only when the left part is all sentinel. -/
theorem scanBackFirstFont_append (xs ys : List Int) :
    scanBackFirstFont (xs ++ ys) =
      if scanBackFirstFont xs = NO_FONT then scanBackFirstFont ys
      else scanBackFirstFont xs := by
  induction xs with
  | nil => simp [scanBackFirstFont]
  | cons x xs ih =>
    by_cases hx : x = NO_FONT
    · simp [scanBackFirstFont, hx, ih]
    · simp [scanBackFirstFont, hx]

/-- A scan over entries that are all the sentinel yields the sentinel. -/
theorem scanBackFirstFont_all_sentinel (xs : List Int)
    (h : ∀ x ∈ xs, x = NO_FONT) : scanBackFirstFont xs = NO_FONT := by
  induction xs with
  | nil => rfl
  | cons x xs ih =>
    have hx : x = NO_FONT := h x (List.mem_cons_self x xs)
    simp [scanBackFirstFont, hx]
    exact ih fun y hy => h y (List.mem_cons_of_mem x hy)

/-- The `BoxGroup::lastFontId` loop computes the first non-sentinel entry of
the children's results listed from the last child to the first. -/
theorem lastFontIdChildren_eq_scan (cs : List Box) :
    lastFontIdChildren cs = scanBackFirstFont ((cs.map Box.lastFontId).reverse) := by
  induction cs with
  | nil => rfl
  | cons c cs ih =>
    simp only [List.map_cons, List.reverse_cons, scanBackFirstFont_append,
      lastFontIdChildren, ih]
    by_cases h : scanBackFirstFont ((cs.map Box.lastFontId).reverse) = NO_FONT
    · simp only [h, if_pos rfl, scanBackFirstFont]
      by_cases hc : c.lastFontId = NO_FONT
      · simp [hc]
      · simp [hc]
    · simp [h]

mutual

/-- The instrumented `lastFontId` returns the pure result and the unchanged
tree: the source bodies write to no box field. -/
theorem lastFontIdM_eq (b : Box) : b.lastFontIdM = (b.lastFontId, b) := by
  match b with
  | .plain m => rfl
  | .leaf m i => rfl
  | .group m cs =>
      simp [Box.lastFontIdM, Box.lastFontId, lastFontIdChildrenM_eq cs]
  | .decor m b' =>
      simp [Box.lastFontIdM, Box.lastFontId, lastFontIdM_eq b']

/-- The instrumented `BoxGroup::lastFontId` loop returns the pure result and
the unchanged child sequence. -/
theorem lastFontIdChildrenM_eq (cs : List Box) :
    lastFontIdChildrenM cs = (lastFontIdChildren cs, cs) := by
  match cs with
  | [] => rfl
  | c :: cs' =>
      simp only [lastFontIdChildrenM, lastFontIdChildren,
        lastFontIdChildrenM_eq cs', lastFontIdM_eq c]
      by_cases h : lastFontIdChildren cs' = NO_FONT
      · simp [h]
      · simp [h]

end

/-- Inserting at an index equal to the list's length appends at the end. -/
theorem vecInsert_length (cs : List Box) (b : Box) :
    vecInsert cs.length b cs = cs ++ [b] := by
  induction cs with
  | nil => rfl
  | cons c cs ih => simp [vecInsert, ih]

/-! ## Claims -/

/-- C1 (counterexample): at the concrete out-of-range input — empty group,
position 1 — `BoxGroup::add(pos, box)` does not fail with an indexing error
surfaced to the caller: the source has no bounds check, and the C++ call is
undefined behavior. -/
theorem addAt_oob_counterexample :
    BoxGroup.addAt [] 1 (Box.plain m0) = AddResult.undefinedBehavior ∧
    (BoxGroup.addAt [] 1 (Box.plain m0)).isIndexError = false := by
  constructor <;> rfl

/-- C1 (amended): for every out-of-range position (`pos < 0` or
`pos > child count`), `BoxGroup::add(pos, box)` performs no bounds check and
surfaces no indexing error — the call is undefined behavior — while the
spec-described operation `addAtSpec` would surface an indexing error with the
child sequence unmodified. -/
theorem addAt_oob_undefined (cs : List Box) (pos : Int) (b : Box)
    (h : pos < 0 ∨ (cs.length : Int) < pos) :
    BoxGroup.addAt cs pos b = AddResult.undefinedBehavior ∧
    (BoxGroup.addAt cs pos b).isIndexError = false ∧
    BoxGroup.addAtSpec cs pos b = AddResult.indexError cs := by
  have hc : ¬(0 ≤ pos ∧ pos ≤ (cs.length : Int)) := by omega
  refine ⟨?_, ?_, ?_⟩ <;> simp [BoxGroup.addAt, BoxGroup.addAtSpec, hc,
    AddResult.isIndexError]

/-- C1 (witness): the amended statement instantiated at the empty group and
position 1, the hypothesis discharged concretely. -/
theorem addAt_oob_undefined_witness :
    ((1 : Int) < 0 ∨ ((([] : List Box).length : Int) < 1)) ∧
    (BoxGroup.addAt [] 1 (Box.leaf m0 5) = AddResult.undefinedBehavior ∧
     (BoxGroup.addAt [] 1 (Box.leaf m0 5)).isIndexError = false ∧
     BoxGroup.addAtSpec [] 1 (Box.leaf m0 5) = AddResult.indexError []) :=
  ⟨Or.inr (by decide), addAt_oob_undefined [] 1 (Box.leaf m0 5) (Or.inr (by decide))⟩

/-- C2 (counterexample): for the group whose two children have `lastFontId`
results 5 and `NO_FONT` (in that order), the group's `lastFontId()` is not
`NO_FONT`: the loop skips the trailing sentinel child and keeps scanning. -/
theorem group_trailing_sentinel_counterexample :
    (Box.leaf m0 5).lastFontId = 5 ∧
    (Box.leaf m0 NO_FONT).lastFontId = NO_FONT ∧
    (Box.group m0 [Box.leaf m0 5, Box.leaf m0 NO_FONT]).lastFontId ≠ NO_FONT := by
  refine ⟨rfl, rfl, ?_⟩
  decide

/-- C2 (amended): for a group whose two children have `lastFontId` results 5
and `NO_FONT` in order, `lastFontId()` returns 5 — the trailing no-font child
is skipped transparently and the earlier child's real font id governs. -/
theorem group_trailing_sentinel_skipped :
    (Box.leaf m0 5).lastFontId = 5 ∧
    (Box.leaf m0 NO_FONT).lastFontId = NO_FONT ∧
    (Box.group m0 [Box.leaf m0 5, Box.leaf m0 NO_FONT]).lastFontId = 5 :=
  ⟨rfl, rfl, rfl⟩

/-- C3: a group's `lastFontId()` is the first non-sentinel entry of the
children's results scanned from the last child to the first; an empty group
yields the sentinel, and so does a group all of whose children yield the
sentinel. -/
theorem group_lastFontId_backward_scan (m : Metrics) (cs : List Box) :
    (Box.group m cs).lastFontId
        = scanBackFirstFont ((cs.map Box.lastFontId).reverse) ∧
    (Box.group m ([] : List Box)).lastFontId = NO_FONT ∧
    ((∀ c ∈ cs, c.lastFontId = NO_FONT) → (Box.group m cs).lastFontId = NO_FONT) := by
  refine ⟨lastFontIdChildren_eq_scan cs, rfl, fun h => ?_⟩
  have : ∀ x ∈ (cs.map Box.lastFontId).reverse, x = NO_FONT := by
    intro x hx
    rcases List.mem_map.mp (List.mem_reverse.mp hx) with ⟨c, hc, rfl⟩
    exact h c hc
  calc (Box.group m cs).lastFontId
      = scanBackFirstFont ((cs.map Box.lastFontId).reverse) :=
        lastFontIdChildren_eq_scan cs
    _ = NO_FONT := scanBackFirstFont_all_sentinel _ this

/-- C3 (witness): the scan characterisation applied to a concrete
one-element group whose child carries no glyph, its inner hypothesis
discharged concretely. -/
theorem group_lastFontId_backward_scan_witness :
    (Box.group m0 [Box.plain m0]).lastFontId = NO_FONT :=
  (group_lastFontId_backward_scan m0 [Box.plain m0]).2.2 (by decide)

/-- C4: after `A.copyMetrics(B)` the four metric fields of `A` equal `B`'s,
`B` is returned unchanged by the call, and `A`'s structural content — the
children of a `BoxGroup`, the base of a `DecorBox` — is unchanged.  The
operation is total: it always yields a box, with no error outcome. -/
theorem copyMetrics_overwrites_metrics_only (A B : Box) :
    (A.copyMetrics B).metrics._width = B.metrics._width ∧
    (A.copyMetrics B).metrics._height = B.metrics._height ∧
    (A.copyMetrics B).metrics._depth = B.metrics._depth ∧
    (A.copyMetrics B).metrics._shift = B.metrics._shift ∧
    (A.copyMetricsM B).2 = B ∧
    (A.copyMetrics B).childrenOf = A.childrenOf ∧
    (A.copyMetrics B).baseOf = A.baseOf := by
  cases A <;>
    simp [Box.copyMetrics, Box.copyMetricsM, Box.setMetrics, Box.metrics,
      Box.childrenOf, Box.baseOf]

/-- C5: `DecorBox::lastFontId()` returns exactly the base box's result, for
every base — in particular a group base — and the delegation composes through
a nested `DecorBox` wrapper. -/
theorem decor_delegates_lastFontId (m m' : Metrics) (b : Box) (cs : List Box) :
    (Box.decor m b).lastFontId = b.lastFontId ∧
    (Box.decor m (Box.decor m' b)).lastFontId = b.lastFontId ∧
    (Box.decor m (Box.group m' cs)).lastFontId = (Box.group m' cs).lastFontId :=
  ⟨rfl, rfl, rfl⟩

/-- C6: positional insert at a position equal to the current child count
produces exactly the child sequence the append overload produces. -/
theorem addAt_count_eq_append (cs : List Box) (b : Box) :
    BoxGroup.addAt cs (cs.length : Int) b = AddResult.ok (BoxGroup.add cs b) := by
  have h : (0 : Int) ≤ (cs.length : Int) ∧ (cs.length : Int) ≤ (cs.length : Int) :=
    ⟨Int.natCast_nonneg _, le_refl _⟩
  simp [BoxGroup.addAt, h, BoxGroup.add, vecInsert_length]

/-- C7: `BoxGroup::add(box)` appends: the child count grows by exactly one,
the last child is the added box, and the prefix holding all previously added
children is unchanged. -/
theorem add_appends (cs : List Box) (b : Box) :
    (BoxGroup.add cs b).length = cs.length + 1 ∧
    (BoxGroup.add cs b).getLast? = some b ∧
    (BoxGroup.add cs b).take cs.length = cs := by
  refine ⟨by simp [BoxGroup.add], ?_, by simp [BoxGroup.add, List.take_left]⟩
  simp [BoxGroup.add]

/-- C8: `lastFontId()` is a pure query — the call leaves the whole tree
exactly as it was, its result agrees with the pure function, and a second
call on the tree the first call returns yields the same result. -/
theorem lastFontId_pure_idempotent (b : Box) :
    b.lastFontIdM.2 = b ∧
    b.lastFontIdM.1 = b.lastFontId ∧
    (b.lastFontIdM.2).lastFontIdM.1 = b.lastFontIdM.1 := by
  simp [lastFontIdM_eq]

/-- C9: the math style constants are 0, 2, 4, 6 — evenly spaced by 2 — and
the atom type constants run consecutively from `TYPE_ORDINARY = 0` through
`TYPE_INNER = 7`, then resume at `TYPE_ACCENT = 10` and run consecutively
through `TYPE_MULTIROW = 14`, preserving the gap between 7 and 10. -/
theorem constants_carry_documented_values :
    STYLE_DISPLAY = 0 ∧ STYLE_TEXT = 2 ∧ STYLE_SCRIPT = 4 ∧
    STYLE_SCRIPT_SCRIPT = 6 ∧
    STYLE_TEXT - STYLE_DISPLAY = 2 ∧ STYLE_SCRIPT - STYLE_TEXT = 2 ∧
    STYLE_SCRIPT_SCRIPT - STYLE_SCRIPT = 2 ∧
    TYPE_ORDINARY = 0 ∧ TYPE_BIG_OPERATOR = 1 ∧ TYPE_BINARY_OPERATOR = 2 ∧
    TYPE_RELATION = 3 ∧ TYPE_OPENING = 4 ∧ TYPE_CLOSING = 5 ∧
    TYPE_PUNCTUATION = 6 ∧ TYPE_INNER = 7 ∧
    TYPE_ACCENT = 10 ∧ TYPE_INTERTEXT = 11 ∧ TYPE_MULTICOLUMN = 12 ∧
    TYPE_HLINE = 13 ∧ TYPE_MULTIROW = 14 ∧
    TYPE_ACCENT - TYPE_INNER = 3 := by
  decide

/-- C10: the self-aliased call `A.copyMetrics(A)` — each assignment reading
the current state of the one shared object — leaves the box unchanged, and so
does the same call read as copying from an identical separate value. -/
theorem copyMetrics_self_identity (A : Box) :
    A.copyMetricsSelf = A ∧ A.copyMetrics A = A := by
  cases A <;>
    simp [Box.copyMetricsSelf, Box.copyMetrics, Box.setMetrics, Box.metrics]

end tex
